import Mathlib

/-!
Shallow embedding of the Trivia API backend (`backend/flaskr/__init__.py`).

The database is modelled as a `List Question` (the rows of the `questions`
table, in storage order) together with a `List Category`.  Each Flask
handler becomes a Lean function from the request's parsed parameters and
the database state to an `Except`-style response: `Except.error e` models
`abort(code)` being translated by the registered error handler into the
JSON error envelope `e`, and `Except.ok r` models a `jsonify(...)` success
response with HTTP status 200.  Handlers that mutate the database also
return the new `List Question`.

Machine integers are modelled as `Nat`/`Int`; the page number is an `Int`
because Flask's `request.args.get('page', 1, type=int)` accepts any
integer, and Python's slice semantics on negative indices matter.
-/

/-- A row of the `questions` table (`models.Question`). -/
structure Question where
  id : Nat
  question : String
  answer : String
  category : Nat
  difficulty : Nat
deriving DecidableEq, Repr

/-- The dictionary produced by `Question.format()`:
`{id, question, answer, category, difficulty}`. -/
structure FormattedQuestion where
  id : Nat
  question : String
  answer : String
  category : Nat
  difficulty : Nat
deriving DecidableEq, Repr

/-- Method `Question.format()` from `models.py`: packages the row's fields. -/
def Question.format (q : Question) : FormattedQuestion :=
  ⟨q.id, q.question, q.answer, q.category, q.difficulty⟩

/-- A row of the `categories` table (`models.Category`); the Python field
`type` is called `ctype` here because `type` is a Lean keyword. -/
structure Category where
  id : Nat
  ctype : String
deriving DecidableEq, Repr

/-- The JSON error envelope `{"success": false, "error": ..., "message": ...}`
produced by the `@app.errorhandler` functions. -/
structure ErrorEnvelope where
  error : Nat
  message : String
deriving DecidableEq, Repr

deriving instance DecidableEq for Except

/-- The `not_found` (404) error handler's envelope. -/
def not_found : ErrorEnvelope := ⟨404, "resource not found"⟩

/-- The `unprocessable` (422) error handler's envelope. -/
def unprocessable : ErrorEnvelope := ⟨422, "unprocessable"⟩

/-- The `bad_request` (400) error handler's envelope. -/
def bad_request : ErrorEnvelope := ⟨400, "bad request"⟩

/-- Python's normalisation of a slice endpoint `i` against a list of length
`n`: negative indices count from the end and everything is clamped to
`[0, n]`. -/
def pyIndex (n : Nat) (i : Int) : Nat :=
  if i < 0 then (i + n).toNat else min i.toNat n

/-- Python's list slice `xs[start:stop]` (step 1). -/
def pySlice (start stop : Int) (xs : List α) : List α :=
  (xs.drop (pyIndex xs.length start)).take
    (pyIndex xs.length stop - pyIndex xs.length start)

/-- Constant `QUESTIONS_PER_PAGE = 10`. -/
def QUESTIONS_PER_PAGE : Nat := 10

/-- Helper `paginate_questions(request, selection)`: formats every row of
`selection` and returns the Python slice
`questions[(page-1)*10 : (page-1)*10 + 10]`.  The `page` argument stands
for `request.args.get('page', 1, type=int)` (so a request without a
`page` parameter is modelled by `page = 1`). -/
def paginate_questions (page : Int) (selection : List Question) :
    List FormattedQuestion :=
  let start := (page - 1) * (QUESTIONS_PER_PAGE : Int)
  let stop := start + (QUESTIONS_PER_PAGE : Int)
  pySlice start stop (selection.map Question.format)

/-- Helper `get_categories()`: the dictionary `{category.id: category.type}` as an
association list in table order. -/
def get_categories (cats : List Category) : List (Nat × String) :=
  cats.map (fun c => (c.id, c.ctype))

/-- Insertion step of sorting the table by `id`, modelling
`Question.query.order_by(Question.id)`. -/
def insertById (q : Question) : List Question → List Question
  | [] => [q]
  | r :: rest => if q.id ≤ r.id then q :: r :: rest else r :: insertById q rest

/-- The table sorted by `id` with insertion sort, modelling
`Question.query.order_by(Question.id).all()`. -/
def orderById : List Question → List Question
  | [] => []
  | q :: rest => insertById q (orderById rest)

/-- Success body of `GET /questions`. -/
structure AllQuestionsOk where
  success : Bool
  questions : List FormattedQuestion
  total_questions : Nat
  categories : List (Nat × String)
deriving DecidableEq, Repr

/-- Handler `retrieve_all_questions` (`GET /questions`): paginate the whole
table, abort 404 when the requested page is empty. -/
def retrieve_all_questions (page : Int) (db : List Question)
    (cats : List Category) : Except ErrorEnvelope AllQuestionsOk :=
  if (paginate_questions page db).isEmpty then Except.error not_found
  else
    Except.ok ⟨true, paginate_questions page db, db.length, get_categories cats⟩

/-- Success body of `DELETE /questions/<id>`. -/
structure DeleteOk where
  success : Bool
  deleted : Nat
  questions : List FormattedQuestion
  total_questions : Nat
deriving DecidableEq, Repr

/-- Handler `delete_question` (`DELETE /questions/<id>`).

The whole handler body sits inside `try: ... except: abort(422)`.  When
`one_or_none()` finds no row the code executes `abort(404)`, but that
raises a `NotFound` exception *inside* the `try` block, so the bare
`except` catches it and the handler ends in `abort(422)`; the 404
envelope is never produced.  When more than one row matches,
`one_or_none()` raises, again yielding 422.  Only the single-match branch
succeeds: the row is deleted and the next page of the remaining
questions (ordered by id) is returned together with the new total. -/
def delete_question (page : Int) (id : Nat) (db : List Question) :
    Except ErrorEnvelope DeleteOk × List Question :=
  match db.filter (fun q => q.id == id) with
  | [_] =>
      (Except.ok ⟨true, id,
        paginate_questions page
          (orderById (db.filter (fun r => !(r.id == id)))),
        (db.filter (fun r => !(r.id == id))).length⟩,
       db.filter (fun r => !(r.id == id)))
  | _ => (Except.error unprocessable, db)

/-- The parsed JSON body of `POST /questions`; each `body.get(...)`
defaults to `none` when the key is absent. -/
structure QuestionBody where
  question : Option String
  answer : Option String
  category : Option Nat
  difficulty : Option Nat
  searchTerm : Option String
deriving DecidableEq, Repr

/-- The two success body shapes of `POST /questions`: a search answer
`{success, questions, total_questions}` or a creation answer
`{success, created, questions, total_questions}`. -/
inductive QuestionsPostOk where
  | searchResult (success : Bool) (questions : List FormattedQuestion)
      (total_questions : Nat)
  | createResult (success : Bool) (created : Nat)
      (questions : List FormattedQuestion) (total_questions : Nat)
deriving DecidableEq, Repr

/-- Python truthiness of `search = body.get('searchTerm')`: the search
branch is taken exactly when the key is present with a non-empty
string. -/
def isSearch (body : QuestionBody) : Bool :=
  match body.searchTerm with
  | some s => !(s == "")
  | none => false

/-- Boolean substring check on character lists. -/
def charsContain (pat : List Char) : List Char → Bool
  | [] => pat == []
  | c :: rest => pat.isPrefixOf (c :: rest) || charsContain pat rest

/-- Case-insensitive substring match.  Modelled from the spec: the
persistence collaborator's
`Question.question.ilike('%{search}%')` filter is specified (§6) as
"filtering ... by case-insensitive substring match on question text";
the SQL pattern matching itself is external collaborator code. -/
def strContainsCI (text pat : String) : Bool :=
  charsContain (pat.toList.map Char.toLower) (text.toList.map Char.toLower)

/-- The search branch of `create_question`: filter the id-ordered table by
case-insensitive substring, paginate, and report the total number of
matches.  The database is read, never written. -/
def search_branch (page : Int) (s : String) (db : List Question) :
    Except ErrorEnvelope QuestionsPostOk × List Question :=
  (Except.ok (.searchResult true
    (paginate_questions page
      ((orderById db).filter (fun q => strContainsCI q.question s)))
    ((orderById db).filter (fun q => strContainsCI q.question s)).length),
   db)

/-- The creation branch of `create_question`: abort 422 when any of the
four required fields is missing, otherwise insert the new row (the
database assigns it the fresh id `nextId`) and return the next page of
the id-ordered table with the new total. -/
def create_branch (page : Int) (body : QuestionBody) (nextId : Nat)
    (db : List Question) : Except ErrorEnvelope QuestionsPostOk × List Question :=
  match body.question, body.answer, body.category, body.difficulty with
  | some q, some a, some c, some d =>
      (Except.ok (.createResult true nextId
        (paginate_questions page (orderById (db ++ [⟨nextId, q, a, c, d⟩])))
        (db ++ [(⟨nextId, q, a, c, d⟩ : Question)]).length),
       db ++ [(⟨nextId, q, a, c, d⟩ : Question)])
  | _, _, _, _ => (Except.error unprocessable, db)

/-- Handler `create_question` (`POST /questions`): `if search:` dispatches
on the truthiness of `body.get('searchTerm')`, so an absent key and an
empty string both fall through to the creation branch. -/
def create_question (page : Int) (body : QuestionBody) (nextId : Nat)
    (db : List Question) : Except ErrorEnvelope QuestionsPostOk × List Question :=
  if isSearch body then
    search_branch page (body.searchTerm.getD "") db
  else
    create_branch page body nextId db

/-- Success body of `GET /categories/<id>/questions`. -/
structure CategoryQuestionsOk where
  success : Bool
  questions : List FormattedQuestion
  total_questions : Nat
  current_category : Nat
  categories : List (Nat × String)
deriving DecidableEq, Repr

/-- Handler `retrieve_questions_per_category`
(`GET /categories/<id>/questions`): filter the table by category,
paginate, abort 404 when the requested page is empty. -/
def retrieve_questions_per_category (page : Int) (id : Nat)
    (db : List Question) (cats : List Category) :
    Except ErrorEnvelope CategoryQuestionsOk :=
  if (paginate_questions page (db.filter (fun q => q.category == id))).isEmpty
  then Except.error not_found
  else
    Except.ok ⟨true,
      paginate_questions page (db.filter (fun q => q.category == id)),
      (db.filter (fun q => q.category == id)).length, id, get_categories cats⟩

/-- The `quiz_category` object of the `POST /quizzes` body after
`int(category['id'])`. -/
structure QuizCategory where
  id : Nat
deriving DecidableEq, Repr

/-- Success body of `POST /quizzes`: `{success, question}` while questions
remain, bare `{success}` once the pool is exhausted. -/
structure QuizOk where
  success : Bool
  question : Option FormattedQuestion
deriving DecidableEq, Repr

/-- Handler `retrieve_quiz_question` (`POST /quizzes`): abort 400 when
either body field is absent (or JSON `null`); otherwise take the pool for
the category (id 0 meaning all questions), drop the previously seen ids,
and if anything remains return one of the survivors — `choice` stands
for the index drawn by `random.sample(poss_qs, 1)[0]`, reduced modulo
the pool size so that every `choice` names a valid draw. -/
def quiz_pool (cat : QuizCategory) (prev : List Nat)
    (db : List Question) : List Question :=
  (if cat.id = 0 then db
   else db.filter (fun q => q.category == cat.id)).filter
    (fun q => !(prev.contains q.id))

def retrieve_quiz_question (quiz_category : Option QuizCategory)
    (previous_questions : Option (List Nat)) (choice : Nat)
    (db : List Question) : Except ErrorEnvelope QuizOk :=
  match quiz_category, previous_questions with
  | some cat, some prev =>
      if h : 0 < (quiz_pool cat prev db).length then
        Except.ok ⟨true, some ((quiz_pool cat prev db).get
          ⟨choice % (quiz_pool cat prev db).length, Nat.mod_lt _ h⟩).format⟩
      else
        Except.ok ⟨true, none⟩
  | _, _ => Except.error bad_request

/-! ### Supporting lemmas -/

/-- For a non-negative start, a Python slice of width `k` is plain
`drop`/`take`. -/
lemma pySlice_of_nonneg {s : Int} (k : Nat) (hs : 0 ≤ s) (xs : List α) :
    pySlice s (s + k) xs = (xs.drop s.toNat).take k := by
  unfold pySlice pyIndex
  rw [if_neg (not_lt.mpr hs), if_neg (by omega : ¬ s + (k : Int) < 0)]
  have h3 : (s + (k : Int)).toNat = s.toNat + k := by omega
  rw [h3]
  rcases Nat.le_total s.toNat xs.length with hc | hc
  · rw [Nat.min_eq_left hc]
    rcases Nat.le_total (s.toNat + k) xs.length with hd | hd
    · rw [Nat.min_eq_left hd]
      have he : s.toNat + k - s.toNat = k := by omega
      rw [he]
    · rw [Nat.min_eq_right hd]
      have hlen : (xs.drop s.toNat).length = xs.length - s.toNat :=
        List.length_drop _ _
      rw [List.take_of_length_le (by omega), List.take_of_length_le (by omega)]
  · rw [Nat.min_eq_right hc,
      Nat.min_eq_right (by omega : xs.length ≤ s.toNat + k)]
    rw [List.drop_eq_nil_of_le hc]
    simp

/-- For pages `p ≥ 1` the pagination helper is the mathematical slice
`take 10 ∘ drop ((p-1)*10)` of the formatted list. -/
lemma paginate_pos {page : Int} (hp : 1 ≤ page) (sel : List Question) :
    paginate_questions page sel =
      ((sel.map Question.format).drop ((page - 1) * 10).toNat).take 10 := by
  unfold paginate_questions QUESTIONS_PER_PAGE
  exact pySlice_of_nonneg 10 (by omega) _

/-- On page 1 the helper returns the first ten formatted items. -/
lemma paginate_one (sel : List Question) :
    paginate_questions 1 sel = (sel.map Question.format).take 10 := by
  rw [paginate_pos le_rfl]
  norm_num

/-- Splitting a list by a predicate preserves total length. -/
lemma length_filter_add_length_filter_not (p : α → Bool) (l : List α) :
    (l.filter p).length + (l.filter (fun a => !(p a))).length = l.length := by
  induction l with
  | nil => rfl
  | cons a l ih =>
      rcases Bool.eq_false_or_eq_true (p a) with h | h <;>
        simp [List.filter_cons, h] <;> omega

/-- When ids are pairwise distinct, filtering the table for the id of a
member returns exactly that row. -/
lemma filter_id_eq_single {db : List Question} {q : Question} {id : Nat}
    (hnd : (db.map Question.id).Nodup) (hq : q ∈ db) (hid : q.id = id) :
    db.filter (fun r => r.id == id) = [q] := by
  induction db with
  | nil => cases hq
  | cons r rest ih =>
      rw [List.map_cons, List.nodup_cons] at hnd
      rcases List.mem_cons.mp hq with h | h
      · subst h
        rw [List.filter_cons_of_pos (p := fun (r : Question) => r.id == id) (by simp [hid])]
        have hrest : rest.filter (fun r => r.id == id) = [] := by
          rw [List.filter_eq_nil_iff]
          intro a ha hb
          have hab : a.id = q.id := (eq_of_beq hb).trans hid.symm
          have hmem : a.id ∈ List.map Question.id rest :=
            List.mem_map_of_mem Question.id ha
          rw [hab] at hmem
          exact hnd.1 hmem
        rw [hrest]
      · have hrid : ¬ (r.id == id) = true := by
          intro hb
          have hqid : q.id ∈ List.map Question.id rest :=
            List.mem_map_of_mem Question.id h
          rw [hid] at hqid
          rw [eq_of_beq hb] at hnd
          exact hnd.1 hqid
        rw [List.filter_cons_of_neg (p := fun (r : Question) => r.id == id) hrid]
        exact ih hnd.2 h


/-! ### Concrete tables used by witnesses and counterexamples -/

/-- A sample row with the given id (category 1, difficulty 1). -/
def qRow (i : Nat) : Question := ⟨i, "q", "a", 1, 1⟩

/-- A three-row table with ids 1, 2, 3. -/
def dbSmall : List Question := [qRow 1, qRow 2, qRow 3]

/-- An eleven-row table, all rows in category 1. -/
def dbEleven : List Question := (List.range 11).map (fun i => qRow (i + 1))

/-- A fifteen-row table. -/
def dbFifteen : List Question := (List.range 15).map (fun i => qRow (i + 1))

/-- Two rows used by the search examples. -/
def dbSearch : List Question :=
  [⟨1, "What is the Title?", "ans", 1, 1⟩, ⟨2, "Nothing here", "ans", 2, 2⟩]

/-! ### Claims -/

/-- C3: for `GET /questions?page=p` with integer `p ≥ 1` (a request
without the parameter is `p = 1`), the questions field of a successful
response is the slice `[(p-1)*10 : (p-1)*10+10]` of the formatted list
of all stored questions, `total_questions` is the size of the whole
table independently of `p`, and the 404 `not_found` envelope is returned
exactly when that slice is empty. -/
theorem C3_paged_question_listing (page : Int) (db : List Question)
    (cats : List Category) (hp : 1 ≤ page) :
    (retrieve_all_questions page db cats = Except.error not_found ↔
      ((db.map Question.format).drop ((page - 1) * 10).toNat).take 10 = []) ∧
    ∀ r, retrieve_all_questions page db cats = Except.ok r →
      r.questions =
        ((db.map Question.format).drop ((page - 1) * 10).toNat).take 10 ∧
      r.total_questions = db.length := by
  have hpag := paginate_pos hp db
  by_cases he : (paginate_questions page db).isEmpty
  · have hemp : paginate_questions page db = [] := List.isEmpty_iff.mp he
    have hres : retrieve_all_questions page db cats = Except.error not_found := by
      unfold retrieve_all_questions
      rw [if_pos he]
    refine ⟨⟨fun _ => by rw [← hpag]; exact hemp, fun _ => hres⟩, ?_⟩
    intro r hr
    rw [hres] at hr
    exact Except.noConfusion hr
  · have hne : paginate_questions page db ≠ [] :=
      fun h => he (List.isEmpty_iff.mpr h)
    have hres : retrieve_all_questions page db cats =
        Except.ok ⟨true, paginate_questions page db, db.length,
          get_categories cats⟩ := by
      unfold retrieve_all_questions
      rw [if_neg he]
    refine ⟨⟨fun hco => ?_, fun hsl => ?_⟩, ?_⟩
    · rw [hres] at hco
      exact Except.noConfusion hco
    · exact absurd (hpag.trans hsl) hne
    · intro r hr
      rw [hres] at hr
      simp only [Except.ok.injEq] at hr
      subst hr
      exact ⟨hpag, rfl⟩

/-- C3 witness: on the three-row table at page 1, the handler succeeds
with the whole formatted table and total 3. -/
theorem C3_witness :
    (retrieve_all_questions 1 dbSmall [] = Except.error not_found ↔
      ((dbSmall.map Question.format).drop (((1 : Int) - 1) * 10).toNat).take 10
        = []) ∧
    ∀ r, retrieve_all_questions 1 dbSmall [] = Except.ok r →
      r.questions =
        ((dbSmall.map Question.format).drop (((1 : Int) - 1) * 10).toNat).take
          10 ∧
      r.total_questions = dbSmall.length :=
  C3_paged_question_listing 1 dbSmall [] (by norm_num)

/-- C9 counterexample: page `-1` on a fifteen-row table.  The start and
stop of the slice are `-20` and `-10`; the positions `-20 ≤ i < -10`
contain no list element, so the claimed slice is empty, and `-1` is an
out-of-range page, yet the helper returns the first five formatted rows:
Python's negative slice indices count from the end of the list
(`questions[-20:-10]` clamps `-20` to `0` and resolves `-10` to `5`). -/
theorem C9_counterexample :
    paginate_questions (-1) dbFifteen =
      (dbFifteen.map Question.format).take 5 ∧
    paginate_questions (-1) dbFifteen ≠ [] := by
  constructor
  · decide
  · decide

/-- C9 (amended): for every page `p ≥ 1` and every list of rows the
helper returns the unclamped slice `take 10 (drop ((p-1)*10))` of the
formatted items, and every page whose start lies at or past the end of
the data yields the empty slice; for `p ≤ 0` Python's negative slice
indexing applies instead and can return a non-empty run of items near
the start of the list. -/
theorem C9_amended_pagination (page : Int) (sel : List Question)
    (hp : 1 ≤ page) :
    paginate_questions page sel =
      ((sel.map Question.format).drop ((page - 1) * 10).toNat).take 10 ∧
    (sel.length ≤ ((page - 1) * 10).toNat →
      paginate_questions page sel = []) := by
  refine ⟨paginate_pos hp sel, fun hlen => ?_⟩
  rw [paginate_pos hp sel,
    List.drop_eq_nil_of_le (by simpa using hlen), List.take_nil]

/-- C9 witness: page 2 of the three-row table is past the data and comes
back empty. -/
theorem C9_witness :
    (paginate_questions 2 dbSmall =
      ((dbSmall.map Question.format).drop (((2 : Int) - 1) * 10).toNat).take
        10 ∧
    (dbSmall.length ≤ (((2 : Int) - 1) * 10).toNat →
      paginate_questions 2 dbSmall = [])) :=
  C9_amended_pagination 2 dbSmall (by norm_num)

/-- C1 counterexample: deleting id 2 from a table holding only id 1.
The response is the 422 `unprocessable` envelope, not the 404
`not_found` envelope the claim requires: the `abort(404)` raised inside
the handler's `try` block is caught by the bare `except`, which ends in
`abort(422)`. -/
theorem C1_counterexample :
    delete_question 1 2 [qRow 1] = (Except.error unprocessable, [qRow 1]) ∧
    unprocessable ≠ not_found := by
  constructor
  · decide
  · decide

/-- C1 (amended): for every `DELETE /questions/<id>` request where no
question with the given id exists, the response is the 422
`unprocessable` envelope and the table is unchanged; the 404 envelope is
never produced by this handler, because the `abort(404)` raised inside
the `try` block is swallowed by the bare `except` clause. -/
theorem C1_amended_delete_missing (page : Int) (id : Nat)
    (db : List Question) (h : ∀ q ∈ db, q.id ≠ id) :
    delete_question page id db = (Except.error unprocessable, db) := by
  have hfil : db.filter (fun q => q.id == id) = [] := by
    rw [List.filter_eq_nil_iff]
    intro a ha hb
    exact h a ha (eq_of_beq hb)
  unfold delete_question
  rw [hfil]

/-- C1 witness: deleting the absent id 5 from the three-row table. -/
theorem C1_witness :
    delete_question 1 5 dbSmall = (Except.error unprocessable, dbSmall) :=
  C1_amended_delete_missing 1 5 dbSmall (by decide)

/-- C5: deleting an existing question from a table with pairwise-distinct
ids removes exactly that row — a subsequent lookup by the id finds
nothing, every other row is still stored — and the response carries
`deleted = id` and `total_questions` equal to the previous total minus
exactly 1. -/
theorem C5_delete_existing (page : Int) (id : Nat) (db : List Question)
    (q : Question) (hnd : (db.map Question.id).Nodup) (hq : q ∈ db)
    (hid : q.id = id) :
    (delete_question page id db).2 = db.filter (fun r => !(r.id == id)) ∧
    (delete_question page id db).2.find? (fun r => r.id == id) = none ∧
    (∀ r ∈ db, r.id ≠ id → r ∈ (delete_question page id db).2) ∧
    ∃ res, (delete_question page id db).1 = Except.ok res ∧
      res.deleted = id ∧ res.total_questions = db.length - 1 := by
  have hfil := filter_id_eq_single hnd hq hid
  have hres : delete_question page id db =
      (Except.ok ⟨true, id,
        paginate_questions page
          (orderById (db.filter (fun r => !(r.id == id)))),
        (db.filter (fun r => !(r.id == id))).length⟩,
       db.filter (fun r => !(r.id == id))) := by
    unfold delete_question
    rw [hfil]
  have hlen : (db.filter (fun r => !(r.id == id))).length = db.length - 1 := by
    have hadd := length_filter_add_length_filter_not
      (fun (r : Question) => r.id == id) db
    rw [hfil] at hadd
    simp only [List.length_cons, List.length_nil] at hadd
    omega
  refine ⟨by rw [hres], ?_, ?_, ?_⟩
  · rw [hres]
    rw [List.find?_eq_none]
    intro x hx hbx
    have hx2 := (List.mem_filter.mp hx).2
    rw [hbx] at hx2
    simp at hx2
  · intro r hr hrid
    rw [hres]
    exact List.mem_filter.mpr ⟨hr, by simp [hrid]⟩
  · refine ⟨⟨true, id,
      paginate_questions page
        (orderById (db.filter (fun r => !(r.id == id)))),
      (db.filter (fun r => !(r.id == id))).length⟩, ?_, rfl, hlen⟩
    rw [hres]

/-- C5 witness: deleting the existing id 2 from the three-row table. -/
theorem C5_witness :
    (delete_question 1 2 dbSmall).2 =
      dbSmall.filter (fun r => !(r.id == 2)) ∧
    (delete_question 1 2 dbSmall).2.find? (fun r => r.id == 2) = none ∧
    (∀ r ∈ dbSmall, r.id ≠ 2 → r ∈ (delete_question 1 2 dbSmall).2) ∧
    ∃ res, (delete_question 1 2 dbSmall).1 = Except.ok res ∧
      res.deleted = 2 ∧ res.total_questions = dbSmall.length - 1 :=
  C5_delete_existing 1 2 dbSmall (qRow 2) (by decide) (by decide) rfl

/-- C7: a `POST /questions` body without a non-empty `searchTerm` and
with at least one of the four required fields missing yields the 422
`unprocessable` envelope and leaves the stored questions — hence
`total_questions` — unchanged. -/
theorem C7_create_missing_fields (page : Int) (body : QuestionBody)
    (nextId : Nat) (db : List Question) (hs : isSearch body = false)
    (hm : body.question = none ∨ body.answer = none ∨
      body.category = none ∨ body.difficulty = none) :
    create_question page body nextId db = (Except.error unprocessable, db) := by
  obtain ⟨bq, ba, bc, bd, bs⟩ := body
  cases bq <;> cases ba <;> cases bc <;> cases bd <;>
    simp_all [create_question, create_branch]

/-- C7 witness: the empty body on the three-row table. -/
theorem C7_witness :
    create_question 1 ⟨none, none, none, none, none⟩ 5 dbSmall =
      (Except.error unprocessable, dbSmall) :=
  C7_create_missing_fields 1 ⟨none, none, none, none, none⟩ 5 dbSmall rfl
    (Or.inl rfl)

/-- C10: a `searchTerm` equal to the empty string is falsy in Python, so
the search branch is not taken and the request is processed by the
creation branch; in particular the body holding exactly
`searchTerm = ""` and nothing else yields the 422 `unprocessable`
envelope (not a search result) and leaves the table unchanged. -/
theorem C10_empty_search_term (page : Int) (body : QuestionBody)
    (nextId : Nat) (db : List Question) :
    (body.searchTerm = some "" →
      create_question page body nextId db =
        create_branch page body nextId db) ∧
    create_question page ⟨none, none, none, none, some ""⟩ nextId db =
      (Except.error unprocessable, db) := by
  constructor
  · intro h
    unfold create_question isSearch
    rw [h]
    simp
  · rfl

/-- C10 witness: the bare empty-search body is routed to the creation
branch on the three-row table. -/
theorem C10_witness :
    create_question 1 ⟨none, none, none, none, some ""⟩ 5 dbSmall =
      create_branch 1 ⟨none, none, none, none, some ""⟩ 5 dbSmall :=
  (C10_empty_search_term 1 ⟨none, none, none, none, some ""⟩ 5 dbSmall).1 rfl

/-- C4: a `POST /questions` body carrying a non-empty `searchTerm` (the
request carries no `page` parameter, so the page is 1) answers with the
first page of the id-ordered formatted questions whose text contains the
term as a case-insensitive substring, with `total_questions` equal to
the total number of matches (not the page size); a term matching nothing
yields the success envelope with `questions = []` and
`total_questions = 0`; the table is not modified. -/
theorem C4_search_questions (body : QuestionBody) (nextId : Nat)
    (db : List Question) (s : String) (hs : body.searchTerm = some s)
    (hne : s ≠ "") :
    create_question 1 body nextId db =
      (Except.ok (.searchResult true
        ((((orderById db).filter
          (fun q => strContainsCI q.question s)).map Question.format).take 10)
        ((orderById db).filter
          (fun q => strContainsCI q.question s)).length),
       db) ∧
    ((orderById db).filter (fun q => strContainsCI q.question s) = [] →
      create_question 1 body nextId db =
        (Except.ok (.searchResult true [] 0), db)) := by
  have hsearch : isSearch body = true := by
    unfold isSearch
    rw [hs]
    simpa using hne
  have h1 : create_question 1 body nextId db = search_branch 1 s db := by
    unfold create_question
    rw [hs, hsearch]
    simp
  have h2 : search_branch 1 s db =
      (Except.ok (.searchResult true
        ((((orderById db).filter
          (fun q => strContainsCI q.question s)).map Question.format).take 10)
        ((orderById db).filter
          (fun q => strContainsCI q.question s)).length),
       db) := by
    unfold search_branch
    rw [paginate_one]
  constructor
  · rw [h1, h2]
  · intro hnil
    rw [h1, h2, hnil]
    simp

/-- C4 witness: searching the two-row table for "tiTle" finds the one
matching question, case-insensitively. -/
theorem C4_witness :
    (create_question 1 ⟨none, none, none, none, some "tiTle"⟩ 7 dbSearch =
      (Except.ok (.searchResult true
        ((((orderById dbSearch).filter
          (fun q => strContainsCI q.question "tiTle")).map
            Question.format).take 10)
        ((orderById dbSearch).filter
          (fun q => strContainsCI q.question "tiTle")).length),
       dbSearch) ∧
    ((orderById dbSearch).filter
        (fun q => strContainsCI q.question "tiTle") = [] →
      create_question 1 ⟨none, none, none, none, some "tiTle"⟩ 7 dbSearch =
        (Except.ok (.searchResult true [] 0), dbSearch))) :=
  C4_search_questions ⟨none, none, none, none, some "tiTle"⟩ 7 dbSearch
    "tiTle" rfl (by decide)

/-- C6 counterexample: a category holding eleven questions.  The handler
succeeds (so the 404 case does not apply) but its `questions` field is
the first page of ten formatted rows, not the full set of the category's
eleven stored questions, refuting "questions is exactly the set of
stored questions whose category equals id". -/
theorem C6_counterexample :
    retrieve_questions_per_category 1 1 dbEleven [] =
      Except.ok ⟨true, (dbEleven.map Question.format).take 10, 11, 1, []⟩ ∧
    (dbEleven.map Question.format).take 10 ≠
      (dbEleven.filter (fun q => q.category == 1)).map Question.format := by
  constructor
  · decide
  · decide

/-- C6 (amended): for `GET /categories/<id>/questions` with page `p ≥ 1`
(a request without the parameter is `p = 1`), the 404 `not_found`
envelope is returned exactly when the requested page of the category's
questions is empty — for the default page 1 that is exactly when the
category holds zero questions; otherwise `questions` is that page (at
most ten rows) of the category's formatted questions,
`total_questions` is the number of stored questions of that category,
and `current_category` echoes the id. -/
theorem C6_amended_questions_by_category (page : Int) (id : Nat)
    (db : List Question) (cats : List Category) (hp : 1 ≤ page) :
    (retrieve_questions_per_category page id db cats =
        Except.error not_found ↔
      (((db.filter (fun q => q.category == id)).map Question.format).drop
        ((page - 1) * 10).toNat).take 10 = []) ∧
    (page = 1 →
      (retrieve_questions_per_category page id db cats =
          Except.error not_found ↔
        db.filter (fun q => q.category == id) = [])) ∧
    ∀ r, retrieve_questions_per_category page id db cats = Except.ok r →
      r.questions = (((db.filter (fun q => q.category == id)).map
        Question.format).drop ((page - 1) * 10).toNat).take 10 ∧
      r.total_questions = (db.filter (fun q => q.category == id)).length ∧
      r.current_category = id := by
  have hpag := paginate_pos hp (db.filter (fun q => q.category == id))
  have hmain :
      (retrieve_questions_per_category page id db cats =
          Except.error not_found ↔
        (((db.filter (fun q => q.category == id)).map Question.format).drop
          ((page - 1) * 10).toNat).take 10 = []) ∧
      ∀ r, retrieve_questions_per_category page id db cats = Except.ok r →
        r.questions = (((db.filter (fun q => q.category == id)).map
          Question.format).drop ((page - 1) * 10).toNat).take 10 ∧
        r.total_questions = (db.filter (fun q => q.category == id)).length ∧
        r.current_category = id := by
    by_cases he :
        (paginate_questions page (db.filter (fun q => q.category == id))).isEmpty
    · have hemp := List.isEmpty_iff.mp he
      have hres : retrieve_questions_per_category page id db cats =
          Except.error not_found := by
        unfold retrieve_questions_per_category
        rw [if_pos he]
      refine ⟨⟨fun _ => by rw [← hpag]; exact hemp, fun _ => hres⟩, ?_⟩
      intro r hr
      rw [hres] at hr
      exact Except.noConfusion hr
    · have hne := fun h => he (List.isEmpty_iff.mpr h)
      have hres : retrieve_questions_per_category page id db cats =
          Except.ok ⟨true,
            paginate_questions page (db.filter (fun q => q.category == id)),
            (db.filter (fun q => q.category == id)).length, id,
            get_categories cats⟩ := by
        unfold retrieve_questions_per_category
        rw [if_neg he]
      refine ⟨⟨fun hco => ?_, fun hsl => ?_⟩, ?_⟩
      · rw [hres] at hco
        exact Except.noConfusion hco
      · exact absurd (hpag.trans hsl) hne
      · intro r hr
        rw [hres] at hr
        simp only [Except.ok.injEq] at hr
        subst hr
        exact ⟨hpag, rfl, rfl⟩
  refine ⟨hmain.1, fun hpage => ?_, hmain.2⟩
  subst hpage
  rw [hmain.1]
  have h0 : (((1 : Int) - 1) * 10).toNat = 0 := by norm_num
  rw [h0, List.drop_zero, List.take_eq_nil_iff, List.map_eq_nil_iff]
  simp

/-- C6 witness: category 2 of the two-row search table has exactly one
question, which page 1 returns in full. -/
theorem C6_witness :
    ((retrieve_questions_per_category 1 2 dbSearch [] =
        Except.error not_found ↔
      (((dbSearch.filter (fun q => q.category == 2)).map
        Question.format).drop (((1 : Int) - 1) * 10).toNat).take 10 = []) ∧
    ((1 : Int) = 1 →
      (retrieve_questions_per_category 1 2 dbSearch [] =
          Except.error not_found ↔
        dbSearch.filter (fun q => q.category == 2) = [])) ∧
    ∀ r, retrieve_questions_per_category 1 2 dbSearch [] = Except.ok r →
      r.questions = (((dbSearch.filter (fun q => q.category == 2)).map
        Question.format).drop (((1 : Int) - 1) * 10).toNat).take 10 ∧
      r.total_questions =
        (dbSearch.filter (fun q => q.category == 2)).length ∧
      r.current_category = 2) :=
  C6_amended_questions_by_category 1 2 dbSearch [] (by norm_num)

/-- Reduction of the quiz handler when both body fields are present. -/
lemma retrieve_quiz_question_some (cat : QuizCategory) (prev : List Nat)
    (choice : Nat) (db : List Question) :
    retrieve_quiz_question (some cat) (some prev) choice db =
      if h : 0 < (quiz_pool cat prev db).length then
        Except.ok ⟨true, some ((quiz_pool cat prev db).get
          ⟨choice % (quiz_pool cat prev db).length, Nat.mod_lt _ h⟩).format⟩
      else Except.ok ⟨true, none⟩ := rfl

/-- Membership of the quiz pool means: unseen id, and matching category
when the category filter is active. -/
lemma mem_quiz_pool {cat : QuizCategory} {prev : List Nat}
    {db : List Question} {q : Question} (hq : q ∈ quiz_pool cat prev db) :
    q.id ∉ prev ∧ (cat.id ≠ 0 → q.category = cat.id) := by
  unfold quiz_pool at hq
  have hsplit := List.mem_filter.mp hq
  constructor
  · have h2 := hsplit.2
    simp at h2
    exact h2
  · intro h0
    have h1 := hsplit.1
    rw [if_neg h0] at h1
    exact eq_of_beq (List.mem_filter.mp h1).2

/-- C2: for `POST /quizzes` with both fields present, any returned
question comes from the filtered pool — its id is not among
`previous_questions`, and for a non-zero category id its category equals
that id (id 0 selects all questions) — and when every candidate of the
selected pool has already been seen the handler answers with the success
envelope carrying no question. -/
theorem C2_quiz_selection (cat : QuizCategory) (prev : List Nat)
    (choice : Nat) (db : List Question) :
    (∀ fq, retrieve_quiz_question (some cat) (some prev) choice db =
        Except.ok ⟨true, some fq⟩ →
      fq.id ∉ prev ∧ (cat.id ≠ 0 → fq.category = cat.id)) ∧
    ((∀ q ∈ (if cat.id = 0 then db
        else db.filter (fun q => q.category == cat.id)), q.id ∈ prev) →
      retrieve_quiz_question (some cat) (some prev) choice db =
        Except.ok ⟨true, none⟩) := by
  constructor
  · intro fq hfq
    rw [retrieve_quiz_question_some] at hfq
    by_cases h : 0 < (quiz_pool cat prev db).length
    · rw [dif_pos h] at hfq
      simp only [Except.ok.injEq, QuizOk.mk.injEq, Option.some.injEq] at hfq
      obtain ⟨-, hfmt⟩ := hfq
      have hmem : (quiz_pool cat prev db).get
          ⟨choice % (quiz_pool cat prev db).length, Nat.mod_lt _ h⟩ ∈
          quiz_pool cat prev db := List.get_mem _ _ _
      have hprop := mem_quiz_pool hmem
      exact ⟨by rw [← hfmt]; exact hprop.1, by rw [← hfmt]; exact hprop.2⟩
    · rw [dif_neg h] at hfq
      simp only [Except.ok.injEq, QuizOk.mk.injEq] at hfq
      exact absurd hfq.2 (by simp)
  · intro hall
    have hpool : quiz_pool cat prev db = [] := by
      unfold quiz_pool
      rw [List.filter_eq_nil_iff]
      intro a ha hb
      have hin : a.id ∈ prev := hall a ha
      simp [hin] at hb
    rw [retrieve_quiz_question_some,
      dif_neg (by rw [hpool]; simp : ¬ 0 < (quiz_pool cat prev db).length)]

/-- C2 witness: a single-question pool whose only id has already been
seen is exhausted, so no question is returned. -/
theorem C2_witness :
    retrieve_quiz_question (some ⟨1⟩) (some [1]) 0 [qRow 1] =
      Except.ok ⟨true, none⟩ :=
  (C2_quiz_selection ⟨1⟩ [1] 0 [qRow 1]).2 (by decide)

/-- C8: `POST /quizzes` answers with the 400 `bad_request` envelope if
and only if `quiz_category` or `previous_questions` is absent (or JSON
null); when both are present the handler never produces an error
envelope at all. -/
theorem C8_quiz_bad_request (qc : Option QuizCategory)
    (pq : Option (List Nat)) (choice : Nat) (db : List Question) :
    (retrieve_quiz_question qc pq choice db = Except.error bad_request ↔
      qc = none ∨ pq = none) ∧
    ∀ e, retrieve_quiz_question qc pq choice db = Except.error e →
      e = bad_request := by
  rcases qc with _ | cat
  · refine ⟨⟨fun _ => Or.inl rfl, fun _ => rfl⟩, ?_⟩
    intro e he
    rw [show retrieve_quiz_question none pq choice db =
      Except.error bad_request from rfl] at he
    exact (Except.error.inj he).symm
  rcases pq with _ | prev
  · refine ⟨⟨fun _ => Or.inr rfl, fun _ => rfl⟩, ?_⟩
    intro e he
    rw [show retrieve_quiz_question (some cat) none choice db =
      Except.error bad_request from rfl] at he
    exact (Except.error.inj he).symm
  · constructor
    · constructor
      · intro hco
        rw [retrieve_quiz_question_some] at hco
        by_cases h : 0 < (quiz_pool cat prev db).length
        · rw [dif_pos h] at hco
          exact Except.noConfusion hco
        · rw [dif_neg h] at hco
          exact Except.noConfusion hco
      · rintro (h | h) <;> exact Option.noConfusion h
    · intro e he
      rw [retrieve_quiz_question_some] at he
      by_cases h : 0 < (quiz_pool cat prev db).length
      · rw [dif_pos h] at he
        exact Except.noConfusion he
      · rw [dif_neg h] at he
        exact Except.noConfusion he

/-- C8 witness: a body missing `quiz_category` draws the 400 envelope. -/
theorem C8_witness :
    retrieve_quiz_question none (some []) 0 dbSmall =
      Except.error bad_request :=
  ((C8_quiz_bad_request none (some []) 0 dbSmall).1).mpr (Or.inl rfl)
